import Mathlib

/-!
Shallow embedding of `src/main.py`, a small smart-home hub: a role-based
access decorator (`access_for`), four device classes (Light, Thermostat,
Camera, Clock) and a `SmartHome` registry.

Modelling conventions, applied uniformly:
* Python exceptions become an explicit error value.  A stateful method on a
  device becomes a function `User → State → ... → OpResult State`, where an
  `error` outcome carries the state as it stood at the moment of the raise
  (so partial mutation, had there been any, would be visible).
* Python `str` keys `str(n)` of the camera memory dict are modelled by the
  integer `n` itself (`str` is injective on the non-negative integers that
  the program produces), and timestamps produced by `datetime.now()` are
  passed in as explicit `String` arguments.
* Log messages keep the literal text of the source; the `%d`/`%.1f` numeric
  interpolations of the source are elided, the claims only count log lines.
* Floats are modelled by `ℚ`; every literal the claims touch (20.0, 25.0,
  0.5, 5, 30) and every intermediate value of the ramp is a dyadic rational
  represented exactly by a Python float, so the model is exact on them.
-/

namespace SmartHomeHub

/-- class Role(Enum), src/main.py lines 20-23. -/
inductive Role where
  | admin
  | user
  | guest
deriving DecidableEq

/-- class DeviceType(Enum), src/main.py lines 34-39. -/
inductive DeviceType where
  | light
  | thermostat
  | camera
  | clock
  | smarthome
deriving DecidableEq

/-- class User, src/main.py lines 27-30. -/
structure User where
  name : String
  role : Role
deriving DecidableEq

/-- The reason attached to each `raise PermissionError` of the decorator
(the Russian message texts of lines 52, 58, 67 and 70, in that order). -/
inductive DenyReason where
  | roleHasNoRights
  | guestsOnlySwitchLights
  | userCannotControl
  | unknownRole
deriving DecidableEq

/-- Outcome of the access check performed by the decorator wrapper. -/
inductive GuardResult where
  | allowed
  | denied (reason : DenyReason)
deriving DecidableEq

/-- def access_for(roles), src/main.py lines 43-73: the decision taken by
`wrapper` before it calls `func`.  `self_type` is `self.type`, `func_name`
is `func.__name__`, `roles` is the decorator argument. -/
def access_for (roles : List Role) (self_type : DeviceType) (func_name : String)
    (user_role : Role) : GuardResult :=
  if user_role = Role.admin then
    .allowed
  else if user_role ∉ roles then
    .denied .roleHasNoRights
  else if user_role = Role.guest then
    if self_type = DeviceType.light ∧ func_name ∈ (["turn_on", "turn_off"] : List String) then
      .allowed
    else
      .denied .guestsOnlySwitchLights
  else if user_role = Role.user then
    if self_type = DeviceType.smarthome ∧ func_name ∈ (["add_device"] : List String) then
      .allowed
    else if self_type ∈ [DeviceType.light, DeviceType.thermostat] then
      .allowed
    else
      .denied .userCannotControl
  else
    .denied .unknownRole

/-- The Python exception kinds the program raises.  `valueError` keeps its
message because the code uses ValueError both for range validation and for
the unknown-operation failure of `control_device`. -/
inductive PyErr where
  | permissionError (reason : DenyReason)
  | valueError (msg : String)
  | keyError
  | runtimeError
deriving DecidableEq

/-- Result of one stateful method call: on success the new state plus the
log lines written during the call; on an exception the error and the state
at the moment of the raise. -/
abbrev OpResult (σ : Type) := Except (PyErr × σ) (σ × List String)

/-- The decorator wrapper around a method body: run the access check, then
either run the body or raise PermissionError leaving the state untouched. -/
def access_wrapper {σ : Type} (roles : List Role) (self_type : DeviceType)
    (func_name : String) (user : User) (s : σ) (body : OpResult σ) : OpResult σ :=
  match access_for roles self_type func_name user.role with
  | .allowed => body
  | .denied r => .error (.permissionError r, s)

/-- Every @access_for-decorated method of the program, as the triple
(kind of self, func.__name__, decorator roles argument), in source order:
Light lines 151/160/165, Thermostat 199/212/222/228/234, Camera
277/283/289/298/312/316, Clock 361/367/374/380, SmartHome 397/407/417/433/440. -/
def guardedOps : List (DeviceType × String × List Role) :=
  [ (.light, "set_brightness", [Role.admin, Role.user]),
    (.light, "turn_off", [Role.admin, Role.user, Role.guest]),
    (.light, "turn_on", [Role.admin, Role.user, Role.guest]),
    (.thermostat, "set_current_temp", [Role.admin, Role.user]),
    (.thermostat, "set_target_temp", [Role.admin, Role.user]),
    (.thermostat, "turn_on", [Role.admin, Role.user]),
    (.thermostat, "turn_off", [Role.admin, Role.user]),
    (.thermostat, "start", [Role.admin, Role.user]),
    (.camera, "turn_on", [Role.admin]),
    (.camera, "turn_off", [Role.admin]),
    (.camera, "start_recording", [Role.admin]),
    (.camera, "stop_recording", [Role.admin]),
    (.camera, "show_memory", [Role.admin]),
    (.camera, "remove", [Role.admin]),
    (.clock, "set_12h", [Role.admin]),
    (.clock, "set_24h", [Role.admin]),
    (.clock, "turn_on", [Role.admin]),
    (.clock, "turn_off", [Role.admin]),
    (.smarthome, "add_device", [Role.admin, Role.user]),
    (.smarthome, "remove_device", [Role.admin]),
    (.smarthome, "show_all_devices", [Role.admin]),
    (.smarthome, "find", [Role.admin]),
    (.smarthome, "clear", [Role.admin]) ]

/-- State of class Light, src/main.py lines 130-134: the private brightness
backing field and the `_status` flag (`name` is kept for the log lines). -/
structure LightState where
  name : String
  brightness : Int
  status : Bool
deriving DecidableEq

namespace Light

/-- brightness.setter, src/main.py lines 144-149.  The `int(value)`
conversion is the identity on the `Int` inputs modelled here.  Raises
ValueError before assigning, so the state in the error is unchanged. -/
def brightness_set (s : LightState) (value : Int) : Except (PyErr × LightState) LightState :=
  if ¬ (0 ≤ value ∧ value ≤ 100) then
    .error (.valueError "Яркость может быть только от 0 до 100", s)
  else
    .ok { s with brightness := value }

/-- Light.set_brightness, src/main.py lines 151-154. -/
def set_brightness (user : User) (s : LightState) (value : Int) : OpResult LightState :=
  access_wrapper [Role.admin, Role.user] DeviceType.light "set_brightness" user s
    (match brightness_set s value with
     | .error e => .error e
     | .ok s1 => .ok (s1, [s1.name ++ ": выставлена текущая яркость"]))

/-- Light.turn_off, src/main.py lines 160-163. -/
def turn_off (user : User) (s : LightState) : OpResult LightState :=
  access_wrapper [Role.admin, Role.user, Role.guest] DeviceType.light "turn_off" user s
    (.ok ({ s with status := false }, [s.name ++ " выключен."]))

/-- Light.turn_on, src/main.py lines 165-169 (default level = 50 passed
explicitly by callers here): sets brightness (validating first), then the
status flag, then logs. -/
def turn_on (user : User) (s : LightState) (level : Int) : OpResult LightState :=
  access_wrapper [Role.admin, Role.user, Role.guest] DeviceType.light "turn_on" user s
    (match brightness_set s level with
     | .error e => .error e
     | .ok s1 => .ok ({ s1 with status := true }, [s1.name ++ " включён."]))

end Light

/-- State of class Thermostat, src/main.py lines 173-178. -/
structure ThermostatState where
  name : String
  current : ℚ
  target : Option ℚ
  status : Bool
deriving DecidableEq

namespace Thermostat

/-- The Python builtin `abs` on the rationals modelling floats. -/
def pyAbs (x : ℚ) : ℚ := if x < 0 then -x else x

/-- The Python builtin `min` on two arguments. -/
def pyMin (a b : ℚ) : ℚ := if a ≤ b then a else b

/-- The Python builtin `max` on two arguments. -/
def pyMax (a b : ℚ) : ℚ := if b ≤ a then a else b

/-- Thermostat._is_validate, src/main.py lines 180-185 (`float(temp)` is the
identity on the `ℚ` inputs modelled here). -/
def is_validate (temp : ℚ) : Except PyErr ℚ :=
  if ¬ (5 ≤ temp ∧ temp ≤ 30) then
    .error (.valueError "Температура должна быть установлена от 5 до 30 С")
  else
    .ok temp

/-- current.setter, src/main.py lines 195-197: validate, then assign. -/
def current_set (s : ThermostatState) (temp : ℚ) :
    Except (PyErr × ThermostatState) ThermostatState :=
  match is_validate temp with
  | .error e => .error (e, s)
  | .ok t => .ok { s with current := t }

/-- Thermostat.set_current_temp, src/main.py lines 199-202. -/
def set_current_temp (user : User) (s : ThermostatState) (temp : ℚ) :
    OpResult ThermostatState :=
  access_wrapper [Role.admin, Role.user] DeviceType.thermostat "set_current_temp" user s
    (match current_set s temp with
     | .error e => .error e
     | .ok s1 => .ok (s1, [s1.name ++ ": установлена текущая температура"]))

/-- Thermostat.turn_on, src/main.py lines 222-226: a no-op (and no log line)
when the status flag is already set. -/
def turn_on (user : User) (s : ThermostatState) : OpResult ThermostatState :=
  access_wrapper [Role.admin, Role.user] DeviceType.thermostat "turn_on" user s
    (if s.status then .ok (s, [])
     else .ok ({ s with status := true }, [s.name ++ " включён."]))

/-- Thermostat.turn_off, src/main.py lines 228-232: a no-op when already off. -/
def turn_off (user : User) (s : ThermostatState) : OpResult ThermostatState :=
  access_wrapper [Role.admin, Role.user] DeviceType.thermostat "turn_off" user s
    (if s.status then .ok ({ s with status := false }, [s.name ++ " выключен."])
     else .ok (s, []))

/-- Thermostat.set_target_temp, src/main.py lines 212-216: validate and set
the target, call turn_on (whose log line, if any, precedes the target log). -/
def set_target_temp (user : User) (s : ThermostatState) (temp : ℚ) :
    OpResult ThermostatState :=
  access_wrapper [Role.admin, Role.user] DeviceType.thermostat "set_target_temp" user s
    (match is_validate temp with
     | .error e => .error (e, s)
     | .ok t =>
       match turn_on user { s with target := some t } with
       | .error e => .error e
       | .ok (s2, log2) =>
         .ok (s2, log2 ++ [s2.name ++ ": выставлена целевая температура"]))

/-- One execution of the while-loop body of Thermostat.start, src/main.py
lines 246-249: move current toward target by step_temp, clamped with
min/max so as never to overshoot. -/
def ramp_step (current target step_temp : ℚ) : ℚ :=
  if current < target then pyMin target (current + step_temp)
  else pyMax target (current - step_temp)

/-- The while-loop of Thermostat.start, src/main.py lines 245-253,
fuel-bounded (`none` = fuel exhausted, the source loop is unbounded).
On normal exit returns the final current value and the number of
iterations (one log line is written per iteration).  Each assignment goes
through the validating current.setter; a ValueError raised there carries
the current value as it stood (validate-then-assign). -/
def ramp_loop (fuel : Nat) (current target step_temp : ℚ) :
    Option (Except (PyErr × ℚ) (ℚ × Nat)) :=
  match fuel with
  | 0 => none
  | Nat.succ fuel =>
    if pyAbs (current - target) > (1 : ℚ) / 1000000 then
      let next := ramp_step current target step_temp
      match is_validate next with
      | .error e => some (.error (e, current))
      | .ok c =>
        match ramp_loop fuel c target step_temp with
        | none => none
        | some (.error e) => some (.error e)
        | some (.ok (fin, n)) => some (.ok (fin, n + 1))
    else
      some (.ok (current, 0))

/-- Thermostat.start, src/main.py lines 234-257 (the `time.sleep` pauses are
elided).  Fuel-bounded because of the while-loop; on success returns the
final state (after the closing `self.turn_off(user)`) and the number of
ramp iterations. -/
def start (user : User) (s : ThermostatState) (step_temp : ℚ) (fuel : Nat) :
    Option (Except (PyErr × ThermostatState) (ThermostatState × Nat)) :=
  match access_for [Role.admin, Role.user] DeviceType.thermostat "start" user.role with
  | .denied r => some (.error (.permissionError r, s))
  | .allowed =>
    if ¬ s.status then some (.error (.runtimeError, s))
    else match s.target with
      | none => some (.error (.runtimeError, s))
      | some tgt =>
        match ramp_loop fuel s.current tgt step_temp with
        | none => none
        | some (.error (e, c)) => some (.error (e, { s with current := c }))
        | some (.ok (fin, n)) =>
          match turn_off user { s with current := fin } with
          | .error e => some (.error e)
          | .ok (s2, _) => some (.ok (s2, n))

end Thermostat

/-- State of class Camera, src/main.py lines 261-267: `memory` is the dict
from issued id (Python key `str(n)`, modelled by `n`) to the formatted
"start -- finish" range; `record` is the start timestamp of the active
recording, if any; `next_id` is the monotone id counter starting at 1. -/
structure CameraState where
  name : String
  status : Bool
  memory : List (Nat × String)
  record : Option String
  next_id : Nat
deriving DecidableEq

namespace Camera

/-- Camera.__init__, src/main.py lines 262-267. -/
def init (name : String) : CameraState :=
  { name := name, status := false, memory := [], record := none, next_id := 1 }

/-- Camera.turn_on, src/main.py lines 277-281: no-op when already on. -/
def turn_on (user : User) (s : CameraState) : OpResult CameraState :=
  access_wrapper [Role.admin] DeviceType.camera "turn_on" user s
    (if s.status then .ok (s, [])
     else .ok ({ s with status := true }, [s.name ++ " включён."]))

/-- Camera.turn_off, src/main.py lines 283-287: no-op when already off. -/
def turn_off (user : User) (s : CameraState) : OpResult CameraState :=
  access_wrapper [Role.admin] DeviceType.camera "turn_off" user s
    (if s.status then .ok ({ s with status := false }, [s.name ++ " выключён."])
     else .ok (s, []))

/-- Camera.start_recording, src/main.py lines 289-296; `now` stands for
`datetime.now().strftime(...)`. -/
def start_recording (user : User) (now : String) (s : CameraState) : OpResult CameraState :=
  access_wrapper [Role.admin] DeviceType.camera "start_recording" user s
    (if ¬ s.status then .error (.runtimeError, s)
     else match s.record with
       | some _ => .error (.runtimeError, s)
       | none => .ok ({ s with record := some now }, [s.name ++ ": начата запись"]))

/-- Camera.stop_recording, src/main.py lines 298-310: store the finished
range under the key `str(next_id)`, clear the active recording, increment
the counter. -/
def stop_recording (user : User) (now : String) (s : CameraState) : OpResult CameraState :=
  access_wrapper [Role.admin] DeviceType.camera "stop_recording" user s
    (if ¬ s.status then .error (.runtimeError, s)
     else match s.record with
       | none => .error (.runtimeError, s)
       | some r =>
         .ok ({ s with memory := s.memory ++ [(s.next_id, r ++ " -- " ++ now)],
                       record := none,
                       next_id := s.next_id + 1 },
              [s.name ++ ": запись остановлена."]))

/-- Camera.remove, src/main.py lines 316-323: `del self.__memory[key]`,
re-raising KeyError when the key is absent. -/
def remove (user : User) (s : CameraState) (id_obj : Nat) : OpResult CameraState :=
  access_wrapper [Role.admin] DeviceType.camera "remove" user s
    (if s.memory.any (fun p => p.1 = id_obj) then
       .ok ({ s with memory := s.memory.filter (fun p => ¬ p.1 = id_obj) },
            ["Запись удалена."])
     else .error (.keyError, s))

/-- Invariant of the camera memory: the counter starts at 1 and only ever
grows, and every stored key was issued by the counter, i.e. lies in
[1, next_id). -/
def memInv (s : CameraState) : Prop :=
  1 ≤ s.next_id ∧ ∀ p ∈ s.memory, 1 ≤ p.1 ∧ p.1 < s.next_id

end Camera

/-- State of class Clock, src/main.py lines 327-331: `en_time` is the
12-hour-format flag (`True` = 12h display). -/
structure ClockState where
  name : String
  status : Bool
  en_time : Bool
deriving DecidableEq

namespace Clock

/-- Clock.set_12h, src/main.py lines 361-365: RuntimeError when off,
otherwise set the 12h flag (no log line). -/
def set_12h (user : User) (s : ClockState) : OpResult ClockState :=
  access_wrapper [Role.admin] DeviceType.clock "set_12h" user s
    (if ¬ s.status then .error (.runtimeError, s)
     else .ok ({ s with en_time := true }, []))

/-- Clock.set_24h, src/main.py lines 367-371: RuntimeError when off,
otherwise clear the 12h flag (no log line). -/
def set_24h (user : User) (s : ClockState) : OpResult ClockState :=
  access_wrapper [Role.admin] DeviceType.clock "set_24h" user s
    (if ¬ s.status then .error (.runtimeError, s)
     else .ok ({ s with en_time := false }, []))

/-- Clock.turn_on, src/main.py lines 374-378: no-op when already on. -/
def turn_on (user : User) (s : ClockState) : OpResult ClockState :=
  access_wrapper [Role.admin] DeviceType.clock "turn_on" user s
    (if s.status then .ok (s, [])
     else .ok ({ s with status := true }, [s.name ++ " включён."]))

/-- Clock.turn_off, src/main.py lines 380-384: no-op when already off. -/
def turn_off (user : User) (s : ClockState) : OpResult ClockState :=
  access_wrapper [Role.admin] DeviceType.clock "turn_off" user s
    (if s.status then .ok ({ s with status := false }, [s.name ++ " выключен."])
     else .ok (s, []))

end Clock

/-- A registered device as SmartHome.control_device sees it: its id, its
kind, and the set of attribute names for which `hasattr(obj, name)` holds. -/
structure DeviceAttrs where
  id_name : String
  dtype : DeviceType
  attrs : List String
deriving DecidableEq

/-- State of class SmartHome, src/main.py lines 388-391: the id-keyed
device mapping, as an association list with unique keys. -/
structure SmartHomeState where
  all_devices : List (String × DeviceAttrs)
deriving DecidableEq

namespace SmartHome

/-- SmartHome.control_device, src/main.py lines 421-431.  It carries no
@access_for decorator: no access check of its own appears below.  `invoke`
abstracts `getattr(obj, method_name)(user, *args)` — the bound (guarded)
method call on the found device; `α` is its result type.  Absent id:
KeyError ("device not found", the spec's NotFound); present id but
`hasattr` false: ValueError "Неизвестный метод" (the spec's
UnknownOperation); otherwise the call's own result is returned as is. -/
def control_device {α : Type} (home : SmartHomeState)
    (invoke : DeviceAttrs → String → User → List Int → α)
    (user : User) (id_name : String) (method_name : String) (args : List Int) :
    Except PyErr α :=
  match home.all_devices.lookup id_name with
  | some obj =>
    if method_name ∈ obj.attrs then .ok (invoke obj method_name user args)
    else .error (.valueError "Неизвестный метод")
  | none => .error .keyError

end SmartHome

/-- A concrete registered light, used to evaluate the registry theorems. -/
def demoDevice : DeviceAttrs :=
  { id_name := "L1", dtype := DeviceType.light,
    attrs := ["turn_on", "turn_off", "set_brightness", "status", "type", "name"] }

/-- A registry holding just `demoDevice`. -/
def demoHome : SmartHomeState := { all_devices := [("L1", demoDevice)] }

/-- A concrete stand-in for the bound-method call of `control_device`. -/
def demoInvoke : DeviceAttrs → String → User → List Int → Nat :=
  fun _ _ _ _ => 7

/-- Admin short-circuits the access check (line 48 of the wrapper),
whatever the declared roles set. -/
lemma access_for_admin (roles : List Role) (dt : DeviceType) (fname : String) :
    access_for roles dt fname Role.admin = GuardResult.allowed := by
  simp [access_for]

/-- A User-role caller passes the check of any thermostat operation whose
declared roles contain User (steps 2 and 4 of the wrapper). -/
lemma access_for_user_thermostat (fname : String) :
    access_for [Role.admin, Role.user] DeviceType.thermostat fname Role.user =
      GuardResult.allowed := by
  simp [access_for]

/-- Unfolding equation of the ramp loop at positive fuel. -/
lemma ramp_loop_succ (fuel : Nat) (current target step_temp : ℚ) :
    Thermostat.ramp_loop (fuel + 1) current target step_temp =
      (if Thermostat.pyAbs (current - target) > (1 : ℚ) / 1000000 then
        match Thermostat.is_validate (Thermostat.ramp_step current target step_temp) with
        | .error e => some (.error (e, current))
        | .ok c =>
          match Thermostat.ramp_loop fuel c target step_temp with
          | none => none
          | some (.error e) => some (.error e)
          | some (.ok (fin, n)) => some (.ok (fin, n + 1))
      else some (.ok (current, 0))) := rfl

/-- The ramp loop run from `target - n * step` with a step larger than the
exit threshold converges to `target` in exactly `n` iterations, provided
the fuel suffices and the travelled range stays inside the valid [5, 30]
band of the current-temperature setter. -/
lemma ramp_loop_exact (step_temp target : ℚ) (hst : (1 : ℚ) / 1000000 < step_temp)
    (n : Nat) (fuel : Nat) (hf : n < fuel)
    (h5 : 5 ≤ target - n * step_temp) (h30 : target ≤ 30) :
    Thermostat.ramp_loop fuel (target - n * step_temp) target step_temp =
      some (.ok (target, n)) := by
  induction n generalizing fuel with
  | zero =>
    obtain ⟨f, rfl⟩ := Nat.exists_eq_succ_of_ne_zero (show fuel ≠ 0 by omega)
    rw [ramp_loop_succ]
    norm_num [Thermostat.pyAbs]
  | succ n ih =>
    obtain ⟨f, rfl⟩ := Nat.exists_eq_succ_of_ne_zero (show fuel ≠ 0 by omega)
    have hstpos : 0 < step_temp := lt_trans (by norm_num) hst
    have hnn : (0 : ℚ) ≤ (n : ℚ) := Nat.cast_nonneg n
    have hnst : 0 ≤ (n : ℚ) * step_temp := mul_nonneg hnn (le_of_lt hstpos)
    push_cast at h5 ⊢
    have hc : target - ((n : ℚ) + 1) * step_temp < target := by linarith
    have habs : Thermostat.pyAbs (target - ((n : ℚ) + 1) * step_temp - target) >
        (1 : ℚ) / 1000000 := by
      have h1 : target - ((n : ℚ) + 1) * step_temp - target =
          -((n : ℚ) * step_temp + step_temp) := by ring
      rw [h1]
      unfold Thermostat.pyAbs
      rw [if_pos (by linarith), neg_neg]
      linarith
    have hstep : Thermostat.ramp_step (target - ((n : ℚ) + 1) * step_temp) target step_temp =
        target - (n : ℚ) * step_temp := by
      unfold Thermostat.ramp_step Thermostat.pyMin
      rw [if_pos hc]
      have harg : target - ((n : ℚ) + 1) * step_temp + step_temp =
          target - (n : ℚ) * step_temp := by ring
      rw [harg]
      rcases eq_or_lt_of_le hnst with h0 | h0
      · rw [if_pos (by linarith)]
        linarith
      · rw [if_neg (not_le.mpr (by linarith))]
    have hn5 : 5 ≤ target - (n : ℚ) * step_temp := by linarith
    have hv : Thermostat.is_validate (target - (n : ℚ) * step_temp) =
        .ok (target - (n : ℚ) * step_temp) := by
      unfold Thermostat.is_validate
      rw [if_neg (not_not_intro ⟨hn5, by linarith⟩)]
    rw [ramp_loop_succ, if_pos habs, hstep, hv]
    simp only [ih f (by omega) hn5]

/-- C1: for every declared allowedRoles set, every device kind and every
operation name, a caller whose role is Admin is never denied: the guard
answers `allowed` — even when Admin is absent from the roles set — and the
wrapper therefore runs the underlying operation body unconditionally. -/
theorem admin_never_denied :
    (∀ (roles : List Role) (dt : DeviceType) (fname : String),
      access_for roles dt fname Role.admin = GuardResult.allowed) ∧
    (∀ (σ : Type) (roles : List Role) (dt : DeviceType) (fname uname : String)
      (s : σ) (body : OpResult σ),
      access_wrapper roles dt fname ⟨uname, Role.admin⟩ s body = body) := by
  constructor
  · intro roles dt fname
    simp [access_for]
  · intro σ roles dt fname uname s body
    simp [access_wrapper, access_for]

/-- C2: over every guarded operation the program declares (with its actual
allowedRoles set), a Guest caller is allowed exactly when the device kind
is Light and the operation is turn_on or turn_off; on every other guarded
operation — any operation of Thermostat, Camera, Clock or the registry,
and set_brightness of Light — the guard denies. -/
theorem guest_only_light_switch :
    ∀ op ∈ guardedOps,
      (access_for op.2.2 op.1 op.2.1 Role.guest = GuardResult.allowed ↔
        (op.1 = DeviceType.light ∧ (op.2.1 = "turn_on" ∨ op.2.1 = "turn_off"))) := by
  decide

/-- Witness for C2: the Guest iff evaluated on two concrete guarded
operations — camera turn_on (denied) and light turn_on (allowed). -/
theorem guest_only_light_switch_witness :
    access_for [Role.admin] DeviceType.camera "turn_on" Role.guest ≠ GuardResult.allowed ∧
    access_for [Role.admin, Role.user, Role.guest] DeviceType.light "turn_on" Role.guest =
      GuardResult.allowed := by
  have h1 := guest_only_light_switch (DeviceType.camera, "turn_on", [Role.admin]) (by decide)
  have h2 := guest_only_light_switch
    (DeviceType.light, "turn_on", [Role.admin, Role.user, Role.guest]) (by decide)
  exact ⟨fun hc => absurd (h1.mp hc).1 (by decide), h2.mpr ⟨rfl, Or.inl rfl⟩⟩

/-- C3: control_device performs no access check of its own (it holds for a
caller of every role, and on success returns exactly the delegated call):
an unregistered id yields KeyError (NotFound); a registered device without
the named attribute yields the ValueError for an unknown method
(UnknownOperation); otherwise the bound method is invoked with the given
user and arguments and its result is returned unchanged. -/
theorem control_device_spec :
    ∀ (α : Type) (home : SmartHomeState)
      (invoke : DeviceAttrs → String → User → List Int → α)
      (user : User) (id_name method_name : String) (args : List Int),
      (home.all_devices.lookup id_name = none →
        SmartHome.control_device home invoke user id_name method_name args =
          .error .keyError) ∧
      (∀ obj, home.all_devices.lookup id_name = some obj →
        method_name ∉ obj.attrs →
        SmartHome.control_device home invoke user id_name method_name args =
          .error (.valueError "Неизвестный метод")) ∧
      (∀ obj, home.all_devices.lookup id_name = some obj →
        method_name ∈ obj.attrs →
        SmartHome.control_device home invoke user id_name method_name args =
          .ok (invoke obj method_name user args)) := by
  intro α home invoke user id_name method_name args
  refine ⟨fun h => ?_, fun obj h hm => ?_, fun obj h hm => ?_⟩
  · simp [SmartHome.control_device, h]
  · simp [SmartHome.control_device, h, hm]
  · simp [SmartHome.control_device, h, hm]

/-- Witness for C3: on the demo registry, a Guest caller reaches the bound
method of "L1" (no gating at this layer), an unknown method name fails
with the unknown-method ValueError, and an unknown id fails with KeyError. -/
theorem control_device_spec_witness :
    SmartHome.control_device demoHome demoInvoke ⟨"g", Role.guest⟩ "L1" "turn_on" [] =
      .ok 7 ∧
    SmartHome.control_device demoHome demoInvoke ⟨"g", Role.guest⟩ "L1" "fly" [] =
      .error (.valueError "Неизвестный метод") ∧
    SmartHome.control_device demoHome demoInvoke ⟨"g", Role.guest⟩ "Z9" "turn_on" [] =
      .error .keyError := by
  refine ⟨?_, ?_, ?_⟩
  · exact (control_device_spec Nat demoHome demoInvoke ⟨"g", Role.guest⟩ "L1" "turn_on" []).2.2
      demoDevice (by decide) (by decide)
  · exact (control_device_spec Nat demoHome demoInvoke ⟨"g", Role.guest⟩ "L1" "fly" []).2.1
      demoDevice (by decide) (by decide)
  · exact (control_device_spec Nat demoHome demoInvoke ⟨"g", Role.guest⟩ "Z9" "turn_on" []).1
      (by decide)

/-- C4: a Thermostat that is on with current 20.0 and target 25.0, started
with step_temp 0.5, terminates after exactly 10 ramp iterations, ends with
current exactly 25.0 and status off; and in general each upward ramp step
with a nonnegative step moves current toward the target without ever
overshooting it. -/
theorem thermostat_ramp_20_to_25 :
    (Thermostat.start ⟨"u", Role.admin⟩ ⟨"T", 20, some 25, true⟩ (1 / 2) 100 =
      some (.ok (⟨"T", 25, some 25, false⟩, 10))) ∧
    (∀ c t st : ℚ, 0 ≤ st → c ≤ t →
      c ≤ Thermostat.ramp_step c t st ∧ Thermostat.ramp_step c t st ≤ t) := by
  constructor
  · have hramp : Thermostat.ramp_loop 100 (20 : ℚ) 25 (1 / 2) = some (.ok (25, 10)) := by
      have h20 : (20 : ℚ) = 25 - (10 : Nat) * (1 / 2) := by norm_num
      rw [h20]
      exact ramp_loop_exact (1 / 2) 25 (by norm_num) 10 100 (by norm_num) (by norm_num)
        (by norm_num)
    simp only [Thermostat.start, access_for_admin, Thermostat.turn_off, access_wrapper]
    norm_num [hramp]
  · intro c t st hst hct
    unfold Thermostat.ramp_step Thermostat.pyMin Thermostat.pyMax
    by_cases h : c < t
    · rw [if_pos h]
      by_cases h2 : t ≤ c + st
      · rw [if_pos h2]
        exact ⟨hct, le_refl t⟩
      · rw [if_neg h2]
        exact ⟨by linarith, by linarith⟩
    · rw [if_neg h]
      have heq : c = t := le_antisymm hct (not_lt.mp h)
      have h2 : c - st ≤ t := by linarith
      rw [if_pos h2]
      exact ⟨hct, le_refl t⟩

/-- Witness for C4: the no-overshoot clause evaluated at the concrete ramp
instance (current 20, target 25, step 0.5). -/
theorem thermostat_ramp_20_to_25_witness :
    (20 : ℚ) ≤ Thermostat.ramp_step 20 25 (1 / 2) ∧
      Thermostat.ramp_step 20 25 (1 / 2) ≤ 25 :=
  thermostat_ramp_20_to_25.2 20 25 (1 / 2) (by norm_num) (by norm_num)

/-- C5: Light.set_brightness called by an Admin succeeds exactly on values
in [0, 100], storing the value; outside that range it raises ValueError
(the spec ValidationError) and the state — in particular the stored
brightness — is exactly the prior one. -/
theorem set_brightness_range :
    ∀ (uname : String) (s : LightState) (v : Int),
      (0 ≤ v ∧ v ≤ 100 →
        Light.set_brightness ⟨uname, Role.admin⟩ s v =
          .ok ({ s with brightness := v }, [s.name ++ ": выставлена текущая яркость"])) ∧
      (¬ (0 ≤ v ∧ v ≤ 100) →
        Light.set_brightness ⟨uname, Role.admin⟩ s v =
          .error (.valueError "Яркость может быть только от 0 до 100", s)) := by
  intro uname s v
  constructor
  · intro h
    simp [Light.set_brightness, access_wrapper, access_for, Light.brightness_set, h]
  · intro h
    simp [Light.set_brightness, access_wrapper, access_for, Light.brightness_set, h]

/-- Witness for C5: brightness 50 accepted, brightness 200 rejected with
the prior state intact. -/
theorem set_brightness_range_witness :
    Light.set_brightness ⟨"a", Role.admin⟩ ⟨"L", 10, false⟩ 50 =
      .ok (⟨"L", 50, false⟩, ["L: выставлена текущая яркость"]) ∧
    Light.set_brightness ⟨"a", Role.admin⟩ ⟨"L", 10, false⟩ 200 =
      .error (.valueError "Яркость может быть только от 0 до 100", ⟨"L", 10, false⟩) := by
  constructor
  · exact (set_brightness_range "a" ⟨"L", 10, false⟩ 50).1 (by decide)
  · exact (set_brightness_range "a" ⟨"L", 10, false⟩ 200).2 (by decide)

/-- Camera.remove raises KeyError, leaving the state untouched, whenever
the looked-up key is absent from the memory dict. -/
lemma camera_remove_absent (uname : String) (s : CameraState) (i : Nat)
    (h : ∀ p ∈ s.memory, p.1 ≠ i) :
    Camera.remove ⟨uname, Role.admin⟩ s i = .error (.keyError, s) := by
  have hany : s.memory.any (fun p => p.1 = i) = false := by
    rw [List.any_eq_false]
    intro p hp
    simp [h p hp]
  simp [Camera.remove, access_wrapper, access_for, hany]

/-- C6: the camera recording protocol and its id discipline.  In order:
stop_recording on an on camera with no active recording raises
RuntimeError (IllegalState); start_recording on an on camera that is
already recording raises RuntimeError; remove of a key absent from memory
raises KeyError (NotFound); a successful stop_recording stores the entry
under the key next_id and increments the counter by one (so ids go 1, 2,
3, ... in stop order); the freshly constructed camera satisfies the memory
invariant; under the invariant the key about to be issued differs from
every stored key (never reused, even after removals); stop_recording and
remove both preserve the invariant; and under the invariant remove of any
id at least next_id — an id that was never issued — raises KeyError. -/
theorem camera_recording_ids :
    (∀ (uname now : String) (s : CameraState), s.status = true → s.record = none →
      Camera.stop_recording ⟨uname, Role.admin⟩ now s = .error (.runtimeError, s)) ∧
    (∀ (uname now r : String) (s : CameraState), s.status = true → s.record = some r →
      Camera.start_recording ⟨uname, Role.admin⟩ now s = .error (.runtimeError, s)) ∧
    (∀ (uname : String) (s : CameraState) (i : Nat),
      (∀ p ∈ s.memory, p.1 ≠ i) →
      Camera.remove ⟨uname, Role.admin⟩ s i = .error (.keyError, s)) ∧
    (∀ (uname now r : String) (s : CameraState), s.status = true → s.record = some r →
      Camera.stop_recording ⟨uname, Role.admin⟩ now s =
        .ok ({ s with memory := s.memory ++ [(s.next_id, r ++ " -- " ++ now)],
                      record := none, next_id := s.next_id + 1 },
             [s.name ++ ": запись остановлена."])) ∧
    (∀ n, Camera.memInv (Camera.init n)) ∧
    (∀ s : CameraState, Camera.memInv s → ∀ p ∈ s.memory, p.1 ≠ s.next_id) ∧
    (∀ (s : CameraState) (entry : String), Camera.memInv s →
      Camera.memInv { s with memory := s.memory ++ [(s.next_id, entry)],
                             record := none, next_id := s.next_id + 1 }) ∧
    (∀ (s : CameraState) (i : Nat), Camera.memInv s →
      Camera.memInv { s with memory := s.memory.filter (fun p => ¬ p.1 = i) }) ∧
    (∀ (uname : String) (s : CameraState) (i : Nat), Camera.memInv s → s.next_id ≤ i →
      Camera.remove ⟨uname, Role.admin⟩ s i = .error (.keyError, s)) := by
  refine ⟨?_, ?_, ?_, ?_, ?_, ?_, ?_, ?_, ?_⟩
  · intro uname now s h1 h2
    simp [Camera.stop_recording, access_wrapper, access_for, h1, h2]
  · intro uname now r s h1 h2
    simp [Camera.start_recording, access_wrapper, access_for, h1, h2]
  · intro uname s i h
    exact camera_remove_absent uname s i h
  · intro uname now r s h1 h2
    simp [Camera.stop_recording, access_wrapper, access_for, h1, h2]
  · intro n
    simp [Camera.memInv, Camera.init]
  · intro s h p hp he
    have := (h.2 p hp).2
    omega
  · intro s entry h
    obtain ⟨ha, hb⟩ := h
    refine ⟨show 1 ≤ s.next_id + 1 by omega, ?_⟩
    intro p hp
    rcases List.mem_append.mp hp with h1 | h1
    · have hc := hb p h1
      exact ⟨hc.1, show p.1 < s.next_id + 1 by omega⟩
    · have hpe : p = (s.next_id, entry) := by simpa using h1
      subst hpe
      exact ⟨ha, show s.next_id < s.next_id + 1 by omega⟩
  · intro s i h
    refine ⟨h.1, ?_⟩
    intro p hp
    exact h.2 p (List.mem_filter.mp hp).1
  · intro uname s i h hi
    refine camera_remove_absent uname s i ?_
    intro p hp he
    have := (h.2 p hp).2
    omega

/-- Witness for C6: on concrete cameras — stopping with no active
recording fails; removing the never-issued id 5 from a camera that has
stored entry 1 fails; a concrete stop stores under key 1 and bumps the
counter to 2. -/
theorem camera_recording_ids_witness :
    Camera.stop_recording ⟨"a", Role.admin⟩ "t1" ⟨"C", true, [], none, 1⟩ =
      .error (.runtimeError, ⟨"C", true, [], none, 1⟩) ∧
    Camera.remove ⟨"a", Role.admin⟩ ⟨"C", true, [(1, "r")], none, 2⟩ 5 =
      .error (.keyError, ⟨"C", true, [(1, "r")], none, 2⟩) ∧
    Camera.stop_recording ⟨"a", Role.admin⟩ "t2" ⟨"C", true, [], some "t1", 1⟩ =
      .ok (⟨"C", true, [(1, "t1 -- t2")], none, 2⟩, ["C: запись остановлена."]) := by
  refine ⟨?_, ?_, ?_⟩
  · exact camera_recording_ids.1 "a" "t1" ⟨"C", true, [], none, 1⟩ rfl rfl
  · exact camera_recording_ids.2.2.2.2.2.2.2.2 "a" ⟨"C", true, [(1, "r")], none, 2⟩ 5
      ⟨by decide, by simp⟩ (by decide)
  · exact camera_recording_ids.2.2.2.1 "a" "t2" "t1" ⟨"C", true, [], some "t1", 1⟩ rfl rfl

/-- C7 counterexample: on a Thermostat that is already on, calling turn_on
twice in a row as Admin produces zero state transitions and zero log lines
in total — not exactly one, as claimed for every starting state; the
guarded body (src/main.py lines 224-226) only acts when the flag is unset,
so from the on state both calls are silent no-ops. -/
theorem thermostat_turn_on_twice_already_on_cex :
    ((match Thermostat.turn_on ⟨"a", Role.admin⟩ ⟨"T", 20, none, true⟩ with
      | .error e => .error e
      | .ok (s1, log1) =>
        match Thermostat.turn_on ⟨"a", Role.admin⟩ s1 with
        | .error e => .error e
        | .ok (s2, log2) => .ok (s2, log1 ++ log2)) : OpResult ThermostatState) =
      .ok (⟨"T", 20, none, true⟩, []) := rfl

/-- C7 (amended): for Thermostat, Camera and Clock, two successive turn_on
calls by an authorized user produce at most one state transition and at
most one log line — exactly one of each when the device starts off, none
when it starts on — and the second call never changes state nor logs;
symmetrically for turn_off (exactly one transition/log when starting on). -/
theorem turn_on_off_idempotent :
    (∀ (u : User) (s : ThermostatState), u.role = Role.admin ∨ u.role = Role.user →
      ∃ s1 log1, Thermostat.turn_on u s = .ok (s1, log1) ∧
        Thermostat.turn_on u s1 = .ok (s1, []) ∧
        (s.status = false → s1 = { s with status := true } ∧ log1 = [s.name ++ " включён."]) ∧
        (s.status = true → s1 = s ∧ log1 = [])) ∧
    (∀ (u : User) (s : CameraState), u.role = Role.admin →
      ∃ s1 log1, Camera.turn_on u s = .ok (s1, log1) ∧
        Camera.turn_on u s1 = .ok (s1, []) ∧
        (s.status = false → s1 = { s with status := true } ∧ log1 = [s.name ++ " включён."]) ∧
        (s.status = true → s1 = s ∧ log1 = [])) ∧
    (∀ (u : User) (s : ClockState), u.role = Role.admin →
      ∃ s1 log1, Clock.turn_on u s = .ok (s1, log1) ∧
        Clock.turn_on u s1 = .ok (s1, []) ∧
        (s.status = false → s1 = { s with status := true } ∧ log1 = [s.name ++ " включён."]) ∧
        (s.status = true → s1 = s ∧ log1 = [])) ∧
    (∀ (u : User) (s : ThermostatState), u.role = Role.admin ∨ u.role = Role.user →
      ∃ s1 log1, Thermostat.turn_off u s = .ok (s1, log1) ∧
        Thermostat.turn_off u s1 = .ok (s1, []) ∧
        (s.status = true → s1 = { s with status := false } ∧ log1 = [s.name ++ " выключен."]) ∧
        (s.status = false → s1 = s ∧ log1 = [])) ∧
    (∀ (u : User) (s : CameraState), u.role = Role.admin →
      ∃ s1 log1, Camera.turn_off u s = .ok (s1, log1) ∧
        Camera.turn_off u s1 = .ok (s1, []) ∧
        (s.status = true → s1 = { s with status := false } ∧ log1 = [s.name ++ " выключён."]) ∧
        (s.status = false → s1 = s ∧ log1 = [])) ∧
    (∀ (u : User) (s : ClockState), u.role = Role.admin →
      ∃ s1 log1, Clock.turn_off u s = .ok (s1, log1) ∧
        Clock.turn_off u s1 = .ok (s1, []) ∧
        (s.status = true → s1 = { s with status := false } ∧ log1 = [s.name ++ " выключен."]) ∧
        (s.status = false → s1 = s ∧ log1 = [])) := by
  refine ⟨?_, ?_, ?_, ?_, ?_, ?_⟩
  · intro u s hu
    have hacc : access_for [Role.admin, Role.user] DeviceType.thermostat "turn_on" u.role =
        GuardResult.allowed := by
      rcases hu with h | h
      · rw [h]
        exact access_for_admin _ _ _
      · rw [h]
        exact access_for_user_thermostat _
    cases hb : s.status
    · refine ⟨{ s with status := true }, [s.name ++ " включён."], ?_, ?_, ?_, ?_⟩
      · simp [Thermostat.turn_on, access_wrapper, hacc, hb]
      · simp [Thermostat.turn_on, access_wrapper, hacc]
      · intro
        exact ⟨rfl, rfl⟩
      · intro hcontra
        cases hcontra
    · refine ⟨s, [], ?_, ?_, ?_, ?_⟩
      · simp [Thermostat.turn_on, access_wrapper, hacc, hb]
      · simp [Thermostat.turn_on, access_wrapper, hacc, hb]
      · intro hcontra
        cases hcontra
      · intro
        exact ⟨rfl, rfl⟩
  · intro u s hu
    have hacc : access_for [Role.admin] DeviceType.camera "turn_on" u.role =
        GuardResult.allowed := by
      rw [hu]
      exact access_for_admin _ _ _
    cases hb : s.status
    · refine ⟨{ s with status := true }, [s.name ++ " включён."], ?_, ?_, ?_, ?_⟩
      · simp [Camera.turn_on, access_wrapper, hacc, hb]
      · simp [Camera.turn_on, access_wrapper, hacc]
      · intro
        exact ⟨rfl, rfl⟩
      · intro hcontra
        cases hcontra
    · refine ⟨s, [], ?_, ?_, ?_, ?_⟩
      · simp [Camera.turn_on, access_wrapper, hacc, hb]
      · simp [Camera.turn_on, access_wrapper, hacc, hb]
      · intro hcontra
        cases hcontra
      · intro
        exact ⟨rfl, rfl⟩
  · intro u s hu
    have hacc : access_for [Role.admin] DeviceType.clock "turn_on" u.role =
        GuardResult.allowed := by
      rw [hu]
      exact access_for_admin _ _ _
    cases hb : s.status
    · refine ⟨{ s with status := true }, [s.name ++ " включён."], ?_, ?_, ?_, ?_⟩
      · simp [Clock.turn_on, access_wrapper, hacc, hb]
      · simp [Clock.turn_on, access_wrapper, hacc]
      · intro
        exact ⟨rfl, rfl⟩
      · intro hcontra
        cases hcontra
    · refine ⟨s, [], ?_, ?_, ?_, ?_⟩
      · simp [Clock.turn_on, access_wrapper, hacc, hb]
      · simp [Clock.turn_on, access_wrapper, hacc, hb]
      · intro hcontra
        cases hcontra
      · intro
        exact ⟨rfl, rfl⟩
  · intro u s hu
    have hacc : access_for [Role.admin, Role.user] DeviceType.thermostat "turn_off" u.role =
        GuardResult.allowed := by
      rcases hu with h | h
      · rw [h]
        exact access_for_admin _ _ _
      · rw [h]
        exact access_for_user_thermostat _
    cases hb : s.status
    · refine ⟨s, [], ?_, ?_, ?_, ?_⟩
      · simp [Thermostat.turn_off, access_wrapper, hacc, hb]
      · simp [Thermostat.turn_off, access_wrapper, hacc, hb]
      · intro hcontra
        cases hcontra
      · intro
        exact ⟨rfl, rfl⟩
    · refine ⟨{ s with status := false }, [s.name ++ " выключен."], ?_, ?_, ?_, ?_⟩
      · simp [Thermostat.turn_off, access_wrapper, hacc, hb]
      · simp [Thermostat.turn_off, access_wrapper, hacc]
      · intro
        exact ⟨rfl, rfl⟩
      · intro hcontra
        cases hcontra
  · intro u s hu
    have hacc : access_for [Role.admin] DeviceType.camera "turn_off" u.role =
        GuardResult.allowed := by
      rw [hu]
      exact access_for_admin _ _ _
    cases hb : s.status
    · refine ⟨s, [], ?_, ?_, ?_, ?_⟩
      · simp [Camera.turn_off, access_wrapper, hacc, hb]
      · simp [Camera.turn_off, access_wrapper, hacc, hb]
      · intro hcontra
        cases hcontra
      · intro
        exact ⟨rfl, rfl⟩
    · refine ⟨{ s with status := false }, [s.name ++ " выключён."], ?_, ?_, ?_, ?_⟩
      · simp [Camera.turn_off, access_wrapper, hacc, hb]
      · simp [Camera.turn_off, access_wrapper, hacc]
      · intro
        exact ⟨rfl, rfl⟩
      · intro hcontra
        cases hcontra
  · intro u s hu
    have hacc : access_for [Role.admin] DeviceType.clock "turn_off" u.role =
        GuardResult.allowed := by
      rw [hu]
      exact access_for_admin _ _ _
    cases hb : s.status
    · refine ⟨s, [], ?_, ?_, ?_, ?_⟩
      · simp [Clock.turn_off, access_wrapper, hacc, hb]
      · simp [Clock.turn_off, access_wrapper, hacc, hb]
      · intro hcontra
        cases hcontra
      · intro
        exact ⟨rfl, rfl⟩
    · refine ⟨{ s with status := false }, [s.name ++ " выключен."], ?_, ?_, ?_, ?_⟩
      · simp [Clock.turn_off, access_wrapper, hacc, hb]
      · simp [Clock.turn_off, access_wrapper, hacc]
      · intro
        exact ⟨rfl, rfl⟩
      · intro hcontra
        cases hcontra

/-- Witness for C7 (amended): concrete double turn_on of a Thermostat that
starts off — the first call switches it on with one log line, the second
changes nothing and logs nothing. -/
theorem turn_on_off_idempotent_witness :
    Thermostat.turn_on ⟨"a", Role.admin⟩ ⟨"T", 20, none, false⟩ =
      .ok (⟨"T", 20, none, true⟩, ["T включён."]) ∧
    Thermostat.turn_on ⟨"a", Role.admin⟩ ⟨"T", 20, none, true⟩ =
      .ok (⟨"T", 20, none, true⟩, []) := by
  obtain ⟨s1, log1, h1, h2, h3, _⟩ :=
    turn_on_off_idempotent.1 ⟨"a", Role.admin⟩ ⟨"T", 20, none, false⟩ (Or.inl rfl)
  obtain ⟨hs, hl⟩ := h3 rfl
  subst hs
  subst hl
  exact ⟨h1, h2⟩

/-- C8: failing Light operations mutate nothing.  Light.turn_on by an Admin
with an out-of-range level raises ValueError and returns with brightness
and status exactly as before (the brightness setter validates before any
assignment and status is only set afterwards); more generally every error
outcome of the three Light operations carries the unmodified input state. -/
theorem light_failure_no_partial_mutation :
    (∀ (uname : String) (s : LightState) (level : Int),
      ¬ (0 ≤ level ∧ level ≤ 100) →
      Light.turn_on ⟨uname, Role.admin⟩ s level =
        .error (.valueError "Яркость может быть только от 0 до 100", s)) ∧
    (∀ (u : User) (s : LightState) (level : Int) (e : PyErr) (s1 : LightState),
      Light.turn_on u s level = .error (e, s1) → s1 = s) ∧
    (∀ (u : User) (s : LightState) (v : Int) (e : PyErr) (s1 : LightState),
      Light.set_brightness u s v = .error (e, s1) → s1 = s) ∧
    (∀ (u : User) (s : LightState) (e : PyErr) (s1 : LightState),
      Light.turn_off u s = .error (e, s1) → s1 = s) := by
  refine ⟨?_, ?_, ?_, ?_⟩
  · intro uname s level h
    simp [Light.turn_on, access_wrapper, access_for, Light.brightness_set, h]
  · intro u s level e s1 h
    unfold Light.turn_on access_wrapper at h
    cases hacc : access_for [Role.admin, Role.user, Role.guest] DeviceType.light "turn_on"
        u.role with
    | allowed =>
      rw [hacc] at h
      by_cases hv : 0 ≤ level ∧ level ≤ 100
      · simp [Light.brightness_set, hv] at h
      · simp [Light.brightness_set, hv] at h
        exact h.2.symm
    | denied r =>
      rw [hacc] at h
      simp at h
      exact h.2.symm
  · intro u s v e s1 h
    unfold Light.set_brightness access_wrapper at h
    cases hacc : access_for [Role.admin, Role.user] DeviceType.light "set_brightness"
        u.role with
    | allowed =>
      rw [hacc] at h
      by_cases hv : 0 ≤ v ∧ v ≤ 100
      · simp [Light.brightness_set, hv] at h
      · simp [Light.brightness_set, hv] at h
        exact h.2.symm
    | denied r =>
      rw [hacc] at h
      simp at h
      exact h.2.symm
  · intro u s e s1 h
    unfold Light.turn_off access_wrapper at h
    cases hacc : access_for [Role.admin, Role.user, Role.guest] DeviceType.light "turn_off"
        u.role with
    | allowed =>
      rw [hacc] at h
      simp at h
    | denied r =>
      rw [hacc] at h
      simp at h
      exact h.2.symm

/-- Witness for C8: turning on a Light with level 200 fails and leaves the
concrete prior state (brightness 30, off) untouched. -/
theorem light_failure_no_partial_mutation_witness :
    Light.turn_on ⟨"a", Role.admin⟩ ⟨"L", 30, false⟩ 200 =
      .error (.valueError "Яркость может быть только от 0 до 100", ⟨"L", 30, false⟩) :=
  light_failure_no_partial_mutation.1 "a" ⟨"L", 30, false⟩ 200 (by decide)

/-- C9: Light.set_brightness changes only the stored brightness (status and
name are untouched), Light.turn_off changes only the status flag
(brightness untouched); concretely a Light turned off while holding
brightness 80 reports status off with a positive stored brightness, so
status is the flag alone, never derived from brightness. -/
theorem light_frame_conditions :
    (∀ (u : User) (s : LightState) (v : Int) (s1 : LightState) (log : List String),
      Light.set_brightness u s v = .ok (s1, log) →
      s1.status = s.status ∧ s1.name = s.name ∧ s1.brightness = v) ∧
    (∀ (u : User) (s : LightState) (s1 : LightState) (log : List String),
      Light.turn_off u s = .ok (s1, log) →
      s1.brightness = s.brightness ∧ s1.name = s.name ∧ s1.status = false) ∧
    (Light.turn_off ⟨"a", Role.admin⟩ ⟨"L", 80, true⟩ =
      .ok (⟨"L", 80, false⟩, ["L выключен."]) ∧ (0 : Int) < 80) := by
  refine ⟨?_, ?_, ?_, ?_⟩
  · intro u s v s1 log h
    unfold Light.set_brightness access_wrapper at h
    cases hacc : access_for [Role.admin, Role.user] DeviceType.light "set_brightness"
        u.role with
    | allowed =>
      rw [hacc] at h
      by_cases hv : 0 ≤ v ∧ v ≤ 100
      · simp [Light.brightness_set, hv] at h
        obtain ⟨h1, -⟩ := h
        subst h1
        simp
      · simp [Light.brightness_set, hv] at h
    | denied r =>
      rw [hacc] at h
      simp at h
  · intro u s s1 log h
    unfold Light.turn_off access_wrapper at h
    cases hacc : access_for [Role.admin, Role.user, Role.guest] DeviceType.light "turn_off"
        u.role with
    | allowed =>
      rw [hacc] at h
      simp at h
      obtain ⟨h1, -⟩ := h
      subst h1
      simp
    | denied r =>
      rw [hacc] at h
      simp at h
  · exact rfl
  · norm_num

/-- Witness for C9: set_brightness 70 on an on Light keeps status and name
and stores 70 — obtained by applying the frame conditions to the concrete
call. -/
theorem light_frame_conditions_witness :
    (⟨"L", 70, true⟩ : LightState).status = (⟨"L", 5, true⟩ : LightState).status ∧
    (⟨"L", 70, true⟩ : LightState).name = (⟨"L", 5, true⟩ : LightState).name ∧
    (⟨"L", 70, true⟩ : LightState).brightness = 70 :=
  light_frame_conditions.1 ⟨"a", Role.admin⟩ ⟨"L", 5, true⟩ 70 ⟨"L", 70, true⟩
    ["L: выставлена текущая яркость"] rfl

/-- C10: with the clock off, both format toggles raise RuntimeError
(IllegalState) and the returned state — in particular the 12h/24h flag —
is exactly the prior one; with the clock on, set_12h sets the flag and
set_24h clears it (neither logs); and both operations declare
allowedRoles = {Admin}, so any non-Admin caller is denied. -/
theorem clock_format_toggle :
    (∀ (uname : String) (s : ClockState), s.status = false →
      Clock.set_12h ⟨uname, Role.admin⟩ s = .error (.runtimeError, s) ∧
      Clock.set_24h ⟨uname, Role.admin⟩ s = .error (.runtimeError, s)) ∧
    (∀ (uname : String) (s : ClockState), s.status = true →
      Clock.set_12h ⟨uname, Role.admin⟩ s = .ok ({ s with en_time := true }, []) ∧
      Clock.set_24h ⟨uname, Role.admin⟩ s = .ok ({ s with en_time := false }, [])) ∧
    (∀ (u : User) (s : ClockState), u.role ≠ Role.admin →
      Clock.set_12h u s = .error (.permissionError .roleHasNoRights, s) ∧
      Clock.set_24h u s = .error (.permissionError .roleHasNoRights, s)) := by
  refine ⟨?_, ?_, ?_⟩
  · intro uname s h
    constructor <;> simp [Clock.set_12h, Clock.set_24h, access_wrapper, access_for, h]
  · intro uname s h
    constructor <;> simp [Clock.set_12h, Clock.set_24h, access_wrapper, access_for, h]
  · intro u s h
    cases hr : u.role with
    | admin => exact absurd hr h
    | user =>
      constructor <;> simp [Clock.set_12h, Clock.set_24h, access_wrapper, access_for, hr]
    | guest =>
      constructor <;> simp [Clock.set_12h, Clock.set_24h, access_wrapper, access_for, hr]

/-- Witness for C10: an off clock rejects set_12h unchanged; an on clock
accepts it; a Guest caller is denied. -/
theorem clock_format_toggle_witness :
    Clock.set_12h ⟨"a", Role.admin⟩ ⟨"K", false, false⟩ =
      .error (.runtimeError, ⟨"K", false, false⟩) ∧
    Clock.set_12h ⟨"a", Role.admin⟩ ⟨"K", true, false⟩ = .ok (⟨"K", true, true⟩, []) ∧
    Clock.set_12h ⟨"g", Role.guest⟩ ⟨"K", true, false⟩ =
      .error (.permissionError .roleHasNoRights, ⟨"K", true, false⟩) := by
  refine ⟨?_, ?_, ?_⟩
  · exact (clock_format_toggle.1 "a" ⟨"K", false, false⟩ rfl).1
  · exact (clock_format_toggle.2.1 "a" ⟨"K", true, false⟩ rfl).1
  · exact (clock_format_toggle.2.2 ⟨"g", Role.guest⟩ ⟨"K", true, false⟩ (by decide)).1

end SmartHomeHub
